import Mathlib

/-!
Shallow embedding of the ME-AI challenge-response verification engine
(`src/services/verificationService.ts` and the type declarations in
`src/types`).  The service source contains two variants of the class
`VerificationService` that differ only in their tuning constants
(MIN_PASS_RATIO 0.20 vs 0.15, the touch-nose / smile / frown thresholds,
the liveness variance threshold), in the wording of the audit lines, in
the token format, and in whether a closing summary line is appended on
success.  Both variants are embedded here through a single `verify`
parameterised by a `Config`; `strictConfig` is the first variant and
`lenientConfig` the second.

Numbers: JavaScript numbers are modelled as exact rationals (`ℚ`) and
timestamps as integers (`ℤ`).  `Math.round` is modelled by `jsRound`
(round half toward positive infinity).  The clock (`Date.now()`) and the
randomness consumed by `generateChallenge` / token generation are
explicit parameters, matching the spec design note that time and
randomness be injected.  `btoa` (base64) is modelled by an identity
placeholder: no claim inspects the token beyond its presence.

The first `reduce` in `calculateVariance` has no initial accumulator, so
on an empty array the real code throws a `TypeError`; the embedding makes
that explicit by returning `Except String`, and `verify` propagates it,
so that the no-exception claim is a real theorem and not a typing
artefact.
-/

namespace MEAI

/-- The `GestureType` union from `src/types`. -/
inductive GestureType
  | left_hand_up
  | right_hand_up
  | touch_nose
  deriving DecidableEq, Repr

/-- The `ExpressionType` union from `src/types`. -/
inductive ExpressionType
  | smile
  | frown
  | blink
  deriving DecidableEq, Repr

/-- The `Challenge` interface from `src/types`. -/
structure Challenge where
  id : String
  gesture : GestureType
  expression : ExpressionType
  expiresAt : ℤ
  deriving DecidableEq, Repr

/-- The `LandmarkData` interface from `src/types`. -/
structure LandmarkData where
  left_hand_y : ℚ
  right_hand_y : ℚ
  shoulder_y : ℚ
  mouth_width : ℚ
  brow_distance : ℚ
  hand_nose_dist : ℚ
  eye_ratio : ℚ
  timestamp : ℤ
  deriving DecidableEq, Repr

/-- The `FrameData` interface from `src/types`. -/
structure FrameData where
  timestamp : ℤ
  eye_ratio : ℚ
  landmarks : LandmarkData
  deriving DecidableEq, Repr

/-- The `VerificationResult` interface from `src/types`; the optional
`token?: string` field becomes `Option String`. -/
structure VerificationResult where
  success : Bool
  score : ℤ
  token : Option String
  reasons : List String
  deriving DecidableEq, Repr

/-- Tuning constants and presentation strings in which the two observed
variants of `VerificationService` differ. -/
structure Config where
  minPassRatio : ℚ
  noseThresh : ℚ
  smileThresh : ℚ
  frownThresh : ℚ
  blinkThresh : ℚ
  varThresh : ℚ
  gestureFailLine : GestureType → String
  gesturePassLine : ℤ → String
  expressionFailLine : ExpressionType → String
  expressionPassLine : ℤ → String
  livenessFailLine : String
  livenessPassLine : String
  summaryLine : Option String
  makeToken : String → ℤ → ℕ → String

/-- JavaScript `Math.round`: round half toward positive infinity. -/
def jsRound (q : ℚ) : ℤ := ⌊q + 1 / 2⌋

/-- Identity placeholder for the browser `btoa` base64 encoder; no claim
inspects token contents, only token presence. -/
def btoa (s : String) : String := s

/-- Hexadecimal rendering of `Math.floor(Math.random() * 0xffffff)`,
the random suffix fed into a token (`.toString(16)`). -/
def hexSuffix (rand : ℕ) : String := String.mk (Nat.toDigits 16 rand)

/-- `generateToken` of the first variant: a JWT-shaped string built from a
fixed header, a payload carrying the challenge id and issue time, and a
random placeholder signature. -/
def generateTokenStrict (challengeId : String) (now : ℤ) (rand : ℕ) : String :=
  let header := btoa "\x7b\x22alg\x22:\x22HS256\x22,\x22typ\x22:\x22JWT\x22\x7d"
  let payload := btoa ("\x7b\x22sub\x22:\x22biometric_auth\x22,\x22cid\x22:\x22" ++ challengeId ++
    "\x22,\x22iat\x22:" ++ toString (now / 1000) ++
    ",\x22exp\x22:" ++ toString (now / 1000 + 600) ++ "\x7d")
  "MFPOL." ++ header ++ "." ++ payload ++ ".sig_0x" ++ hexSuffix rand

/-- `generateToken` of the second variant. -/
def generateTokenLenient (challengeId : String) (now : ℤ) (rand : ℕ) : String :=
  "MFPOL." ++ btoa challengeId ++ "." ++ btoa (toString now) ++ ".sig_" ++ hexSuffix rand

/-- The gesture name with underscores replaced by spaces, as produced by
`challenge.gesture.replace(/_/g, ' ')`. -/
def gestureWords : GestureType → String
  | .left_hand_up => "left hand up"
  | .right_hand_up => "right hand up"
  | .touch_nose => "touch nose"

/-- The raw expression name interpolated into audit lines. -/
def expressionWords : ExpressionType → String
  | .smile => "smile"
  | .frown => "frown"
  | .blink => "blink"

/-- Variant 1 of `VerificationService` (MIN_PASS_RATIO = 0.20, touch-nose
threshold 0.16, smile 0.075, frown 0.025, blink 0.012, liveness variance
threshold 0.000000005, closing summary line on success). -/
def strictConfig : Config where
  minPassRatio := 0.20
  noseThresh := 0.16
  smileThresh := 0.075
  frownThresh := 0.025
  blinkThresh := 0.012
  varThresh := 0.000000005
  gestureFailLine := fun g => "CRITICAL: Mandatory gesture (" ++ gestureWords g ++ ") not detected"
  gesturePassLine := fun p => "Gesture sequence verified: " ++ toString p ++ "% temporal match"
  expressionFailLine := fun e => "CRITICAL: Mandatory expression (" ++ expressionWords e ++ ") not detected"
  expressionPassLine := fun p => "Expression micro-signature verified: " ++ toString p ++ "% temporal match"
  livenessFailLine := "CRITICAL: Temporal authenticity failed (Static subject suspected)"
  livenessPassLine := "Temporal noise verified (Human subject confirmed)"
  summaryLine := some "All security layers validated successfully"
  makeToken := generateTokenStrict

/-- Variant 2 of `VerificationService` (MIN_PASS_RATIO = 0.15, touch-nose
threshold 0.20, smile 0.07, frown 0.03, blink 0.012, liveness variance
threshold 0.000000001, no closing summary line). -/
def lenientConfig : Config where
  minPassRatio := 0.15
  noseThresh := 0.20
  smileThresh := 0.07
  frownThresh := 0.03
  blinkThresh := 0.012
  varThresh := 0.000000001
  gestureFailLine := fun g => "CRITICAL: Mandatory gesture (" ++ gestureWords g ++ ") missing"
  gesturePassLine := fun p => "Gesture confirmed: " ++ toString p ++ "% match"
  expressionFailLine := fun e => "CRITICAL: Mandatory expression (" ++ expressionWords e ++ ") missing"
  expressionPassLine := fun p => "Expression confirmed: " ++ toString p ++ "% match"
  livenessFailLine := "CRITICAL: Temporal authenticity failure"
  livenessPassLine := "Temporal authenticity confirmed"
  summaryLine := none
  makeToken := generateTokenLenient

/-- `CHALLENGE_EXPIRY` (identical in both variants). -/
def CHALLENGE_EXPIRY : ℤ := 45000

/-- The `gestures` array of `generateChallenge`. -/
def gestures : List GestureType := [.left_hand_up, .right_hand_up, .touch_nose]

/-- The `expressions` array of `generateChallenge`. -/
def expressions : List ExpressionType := [.smile, .frown, .blink]

/-- `generateChallenge` (identical in both variants).  The identifier
string and the two uniform random draws `rg, re ∈ [0, 1)` feeding
`Math.floor(Math.random() * 3)` are explicit inputs; the `getD` fallback
is unreachable for draws in `[0, 1)`. -/
def generateChallenge (idStr : String) (rg re : ℚ) (now : ℤ) : Challenge where
  id := idStr
  gesture := (gestures.get? (⌊rg * (gestures.length : ℚ)⌋).toNat).getD .left_hand_up
  expression := (expressions.get? (⌊re * (expressions.length : ℚ)⌋).toNat).getD .smile
  expiresAt := now + CHALLENGE_EXPIRY

/-- The per-frame gesture predicate selected by `challenge.gesture`
(the three-way branch in the `frames.forEach` body). -/
def gesturePred (cfg : Config) (g : GestureType) (lm : LandmarkData) : Bool :=
  match g with
  | .left_hand_up => decide (lm.left_hand_y > 0 ∧ lm.left_hand_y < lm.shoulder_y)
  | .right_hand_up => decide (lm.right_hand_y > 0 ∧ lm.right_hand_y < lm.shoulder_y)
  | .touch_nose => decide (lm.hand_nose_dist < cfg.noseThresh)

/-- The per-frame expression predicate selected by `challenge.expression`. -/
def expressionPred (cfg : Config) (e : ExpressionType) (lm : LandmarkData) : Bool :=
  match e with
  | .smile => decide (lm.mouth_width > cfg.smileThresh)
  | .frown => decide (lm.brow_distance < cfg.frownThresh)
  | .blink => decide (lm.eye_ratio < cfg.blinkThresh)

/-- `gesturePassCount`: frames whose landmark snapshot satisfies the
selected gesture predicate (the `forEach` counter). -/
def gesturePassCount (cfg : Config) (g : GestureType) (frames : List FrameData) : ℕ :=
  frames.countP (fun f => gesturePred cfg g f.landmarks)

/-- `expressionPassCount`: frames whose landmark snapshot satisfies the
selected expression predicate. -/
def expressionPassCount (cfg : Config) (e : ExpressionType) (frames : List FrameData) : ℕ :=
  frames.countP (fun f => expressionPred cfg e f.landmarks)

/-- `count / frames.length`, the ratio aggregation step. -/
def ratioOf (count n : ℕ) : ℚ := (count : ℚ) / (n : ℚ)

/-- `calculateVariance`.  The first `reduce` carries no initial value, so
JavaScript throws a `TypeError` on an empty array; on `a :: rest` it is a
left fold started at `a`.  The second `reduce` has initial value `0`. -/
def calculateVariance (data : List ℚ) : Except String ℚ :=
  match data with
  | [] => .error "TypeError: Reduce of empty array with no initial value"
  | a :: rest =>
    let mean := rest.foldl (fun x y => x + y) a / ((a :: rest).length : ℚ)
    .ok ((a :: rest).foldl (fun acc b => acc + (b - mean) ^ 2) 0 / ((a :: rest).length : ℚ))

/-- Population variance as a total function, used to state properties of
`calculateVariance` on non-empty data. -/
def populationVariance (data : List ℚ) : ℚ :=
  let mean := data.sum / (data.length : ℚ)
  (data.map (fun b => (b - mean) ^ 2)).sum / (data.length : ℚ)

/-- One capped score contribution: `Math.min(ratio / 0.4, 1) * 40`. -/
def scoreContrib (r : ℚ) : ℚ := min (r / 0.4) 1 * 40

/-- The `displayScore` expression (identical in both variants). -/
def displayScore (gestureRatio expressionRatio : ℚ) (livenessPassed : Bool) : ℤ :=
  jsRound (scoreContrib gestureRatio + scoreContrib expressionRatio +
    (if livenessPassed then 20 else 0))

/-- Steps 3-9 of `verify` once the expiry and density guards have passed
and the variance has been computed: ratios, factor verdicts, verdict
conjunction, display score, audit lines and token issuance. -/
def verdict (cfg : Config) (challenge : Challenge) (frames : List FrameData)
    (variance : ℚ) (now : ℤ) (rand : ℕ) : VerificationResult :=
  let gestureRatio := ratioOf (gesturePassCount cfg challenge.gesture frames) frames.length
  let expressionRatio := ratioOf (expressionPassCount cfg challenge.expression frames) frames.length
  let livenessPassed := decide (variance > cfg.varThresh)
  let gesturePassed := decide (gestureRatio ≥ cfg.minPassRatio)
  let expressionPassed := decide (expressionRatio ≥ cfg.minPassRatio)
  let success := gesturePassed && expressionPassed && livenessPassed
  { success := success
    score := displayScore gestureRatio expressionRatio livenessPassed
    token := if success then some (cfg.makeToken challenge.id now rand) else none
    reasons :=
      [if gesturePassed then cfg.gesturePassLine (jsRound (gestureRatio * 100))
        else cfg.gestureFailLine challenge.gesture,
       if expressionPassed then cfg.expressionPassLine (jsRound (expressionRatio * 100))
        else cfg.expressionFailLine challenge.expression,
       if livenessPassed then cfg.livenessPassLine else cfg.livenessFailLine] ++
      (if success then cfg.summaryLine.toList else []) }

/-- `VerificationService.verify`.  `now` is the `Date.now()` reading and
`rand` the randomness consumed by token generation.  A thrown exception
(the empty-array `reduce` inside `calculateVariance`) would surface as
`.error`. -/
def verify (cfg : Config) (challenge : Challenge) (frames : List FrameData)
    (now : ℤ) (rand : ℕ) : Except String VerificationResult :=
  if now > challenge.expiresAt then
    .ok { success := false, score := 0, token := none,
          reasons := ["Protocol timeout: session expired"] }
  else if frames.length < 15 then
    .ok { success := false, score := 0, token := none,
          reasons := ["Data density failure: insufficient biometric stream"] }
  else
    (calculateVariance (frames.map (fun f => f.eye_ratio))).map
      (fun variance => verdict cfg challenge frames variance now rand)

/-- The payload of `verify`, which is total (`verify` never returns
`.error`, as proved below); the fallback is unreachable. -/
def resultOf (cfg : Config) (challenge : Challenge) (frames : List FrameData)
    (now : ℤ) (rand : ℕ) : VerificationResult :=
  ((verify cfg challenge frames now rand).toOption).getD
    { success := false, score := 0, token := none, reasons := [] }

/-! Helper lemmas -/

theorem listFoldl_add (l : List ℚ) (a : ℚ) :
    l.foldl (fun x y => x + y) a = a + l.sum := by
  induction l generalizing a with
  | nil => simp
  | cons b t ih => rw [List.foldl_cons, ih, List.sum_cons]; ring

theorem listFoldl_addMap (g : ℚ → ℚ) (l : List ℚ) (c : ℚ) :
    l.foldl (fun acc b => acc + g b) c = c + (l.map g).sum := by
  induction l generalizing c with
  | nil => simp
  | cons b t ih => rw [List.foldl_cons, ih, List.map_cons, List.sum_cons]; ring

theorem calculateVariance_ok (data : List ℚ) (h : data ≠ []) :
    calculateVariance data = .ok (populationVariance data) := by
  match data, h with
  | a :: rest, _ =>
    simp only [calculateVariance, populationVariance]
    rw [listFoldl_add, listFoldl_addMap]
    simp [List.sum_cons]

theorem verify_expired (cfg : Config) (ch : Challenge) (frames : List FrameData)
    (now : ℤ) (rand : ℕ) (h : now > ch.expiresAt) :
    verify cfg ch frames now rand =
      .ok ⟨false, 0, none, ["Protocol timeout: session expired"]⟩ := by
  simp [verify, h]

theorem verify_short (cfg : Config) (ch : Challenge) (frames : List FrameData)
    (now : ℤ) (rand : ℕ) (h1 : ¬ now > ch.expiresAt) (h2 : frames.length < 15) :
    verify cfg ch frames now rand =
      .ok ⟨false, 0, none, ["Data density failure: insufficient biometric stream"]⟩ := by
  simp [verify, h1, h2]

theorem verify_full (cfg : Config) (ch : Challenge) (frames : List FrameData)
    (now : ℤ) (rand : ℕ) (h1 : ¬ now > ch.expiresAt) (h2 : 15 ≤ frames.length) :
    verify cfg ch frames now rand =
      .ok (verdict cfg ch frames
        (populationVariance (frames.map (fun f => f.eye_ratio))) now rand) := by
  have hne : frames ≠ [] := by
    intro he
    rw [he] at h2
    simp at h2
  have hm : frames.map (fun f => f.eye_ratio) ≠ [] := by simp [hne]
  rw [verify, if_neg h1, if_neg (Nat.not_lt.mpr h2), calculateVariance_ok _ hm]
  rfl

theorem resultOf_expired (cfg : Config) (ch : Challenge) (frames : List FrameData)
    (now : ℤ) (rand : ℕ) (h : now > ch.expiresAt) :
    resultOf cfg ch frames now rand =
      ⟨false, 0, none, ["Protocol timeout: session expired"]⟩ := by
  simp [resultOf, verify_expired cfg ch frames now rand h, Except.toOption]

theorem resultOf_short (cfg : Config) (ch : Challenge) (frames : List FrameData)
    (now : ℤ) (rand : ℕ) (h1 : ¬ now > ch.expiresAt) (h2 : frames.length < 15) :
    resultOf cfg ch frames now rand =
      ⟨false, 0, none, ["Data density failure: insufficient biometric stream"]⟩ := by
  simp [resultOf, verify_short cfg ch frames now rand h1 h2, Except.toOption]

theorem resultOf_full (cfg : Config) (ch : Challenge) (frames : List FrameData)
    (now : ℤ) (rand : ℕ) (h1 : ¬ now > ch.expiresAt) (h2 : 15 ≤ frames.length) :
    resultOf cfg ch frames now rand =
      verdict cfg ch frames
        (populationVariance (frames.map (fun f => f.eye_ratio))) now rand := by
  simp [resultOf, verify_full cfg ch frames now rand h1 h2, Except.toOption]

theorem verdict_success_iff (cfg : Config) (ch : Challenge) (frames : List FrameData)
    (v : ℚ) (now : ℤ) (rand : ℕ) :
    ((verdict cfg ch frames v now rand).success = true ↔
      (ratioOf (gesturePassCount cfg ch.gesture frames) frames.length ≥ cfg.minPassRatio ∧
       ratioOf (expressionPassCount cfg ch.expression frames) frames.length ≥ cfg.minPassRatio ∧
       v > cfg.varThresh)) := by
  simp [verdict, Bool.and_eq_true, decide_eq_true_eq, and_assoc]

theorem success_iff (cfg : Config) (ch : Challenge) (frames : List FrameData)
    (now : ℤ) (rand : ℕ) (h1 : ¬ now > ch.expiresAt) (h2 : 15 ≤ frames.length) :
    ((resultOf cfg ch frames now rand).success = true ↔
      (ratioOf (gesturePassCount cfg ch.gesture frames) frames.length ≥ cfg.minPassRatio ∧
       ratioOf (expressionPassCount cfg ch.expression frames) frames.length ≥ cfg.minPassRatio ∧
       populationVariance (frames.map (fun f => f.eye_ratio)) > cfg.varThresh)) := by
  rw [resultOf_full cfg ch frames now rand h1 h2]
  exact verdict_success_iff cfg ch frames _ now rand

theorem token_iff_success (cfg : Config) (ch : Challenge) (frames : List FrameData)
    (now : ℤ) (rand : ℕ) (r : VerificationResult)
    (h : verify cfg ch frames now rand = .ok r) :
    (r.token.isSome = true ↔ r.success = true) := by
  by_cases h1 : now > ch.expiresAt
  · rw [verify_expired cfg ch frames now rand h1] at h
    injection h with h
    subst h
    simp
  · by_cases h2 : frames.length < 15
    · rw [verify_short cfg ch frames now rand h1 h2] at h
      injection h with h
      subst h
      simp
    · rw [verify_full cfg ch frames now rand h1 (Nat.not_lt.mp h2)] at h
      injection h with h
      subst h
      simp only [verdict]
      cases hb : (decide (ratioOf (gesturePassCount cfg ch.gesture frames) frames.length ≥
          cfg.minPassRatio) &&
        decide (ratioOf (expressionPassCount cfg ch.expression frames) frames.length ≥
          cfg.minPassRatio) &&
        decide (populationVariance (frames.map (fun f => f.eye_ratio)) > cfg.varThresh)) <;>
        simp [hb]

theorem verdict_score (cfg : Config) (ch : Challenge) (frames : List FrameData)
    (v : ℚ) (now : ℤ) (rand : ℕ) :
    (verdict cfg ch frames v now rand).score =
      displayScore (ratioOf (gesturePassCount cfg ch.gesture frames) frames.length)
        (ratioOf (expressionPassCount cfg ch.expression frames) frames.length)
        (decide (v > cfg.varThresh)) := rfl

theorem ratioOf_nonneg (c n : ℕ) : 0 ≤ ratioOf c n := by
  unfold ratioOf
  positivity

theorem scoreContrib_bounds (r : ℚ) (hr : 0 ≤ r) :
    0 ≤ scoreContrib r ∧ scoreContrib r ≤ 40 := by
  unfold scoreContrib
  constructor
  · have h1 : (0:ℚ) ≤ min (r / 0.4) 1 := le_min (by positivity) (by norm_num)
    nlinarith
  · have h2 : min (r / 0.4) 1 ≤ 1 := min_le_right _ _
    nlinarith

theorem jsRound_bounds (q : ℚ) (h0 : 0 ≤ q) (h1 : q ≤ 100) :
    0 ≤ jsRound q ∧ jsRound q ≤ 100 := by
  unfold jsRound
  constructor
  · exact Int.floor_nonneg.mpr (by linarith)
  · have : ⌊q + 1 / 2⌋ < 101 := Int.floor_lt.mpr (by push_cast; linarith)
    omega

theorem displayScore_bounds (gR eR : ℚ) (hg : 0 ≤ gR) (he : 0 ≤ eR) (b : Bool) :
    0 ≤ displayScore gR eR b ∧ displayScore gR eR b ≤ 100 := by
  obtain ⟨g1, g2⟩ := scoreContrib_bounds gR hg
  obtain ⟨e1, e2⟩ := scoreContrib_bounds eR he
  unfold displayScore
  apply jsRound_bounds
  · cases b <;> simp <;> linarith
  · cases b <;> simp <;> linarith

theorem countP_replicate {α : Type} (p : α → Bool) (n : ℕ) (a : α) :
    (List.replicate n a).countP p = if p a then n else 0 := by
  induction n with
  | zero => simp
  | succ k ih =>
    rw [List.replicate_succ]
    by_cases h : p a <;> simp [List.countP_cons, ih, h]

/-! Concrete fixtures for witnesses and counterexamples -/

/-- A landmark snapshot of a compliant subject: hand on the nose, wide
mouth, both wrists undetected (sentinel -1). -/
def lmFix : LandmarkData where
  left_hand_y := -1
  right_hand_y := -1
  shoulder_y := 0.5
  mouth_width := 1
  brow_distance := 1
  hand_nose_dist := 0
  eye_ratio := 0
  timestamp := 0

/-- A frame with eye aperture 0. -/
def frameFix : FrameData := ⟨0, 0, lmFix⟩

/-- A frame with eye aperture 1, giving the series temporal variance. -/
def frameWide : FrameData := ⟨0, 1, lmFix⟩

/-- A touch-nose / smile challenge expiring at absolute time 45000. -/
def chFix : Challenge := ⟨"AB12", .touch_nose, .smile, 45000⟩

/-- Fifteen identical frames: factors pass, eye-ratio variance is zero. -/
def framesConst : List FrameData := List.replicate 15 frameFix

/-- Fifteen frames with one differing eye aperture: nonzero variance. -/
def framesVaried : List FrameData := frameWide :: List.replicate 14 frameFix

/-- The timeout result returned on expiry. -/
def resTimeout : VerificationResult :=
  ⟨false, 0, none, ["Protocol timeout: session expired"]⟩

/-! Claims -/

/-- C1: for every challenge and frame sequence of at least 15 frames
evaluated before the expiry deadline, verify (in each of the two
variants) returns success = true iff the gesture ratio and the
expression ratio each meet the minimum pass ratio and the population
variance of the eye_ratio series strictly exceeds the liveness
threshold. -/
theorem claim_C1_success_iff_all_factors (ch : Challenge) (frames : List FrameData)
    (now : ℤ) (rand : ℕ) (h1 : ¬ now > ch.expiresAt) (h2 : 15 ≤ frames.length) :
    ((resultOf strictConfig ch frames now rand).success = true ↔
      (ratioOf (gesturePassCount strictConfig ch.gesture frames) frames.length ≥
         strictConfig.minPassRatio ∧
       ratioOf (expressionPassCount strictConfig ch.expression frames) frames.length ≥
         strictConfig.minPassRatio ∧
       populationVariance (frames.map (fun f => f.eye_ratio)) > strictConfig.varThresh)) ∧
    ((resultOf lenientConfig ch frames now rand).success = true ↔
      (ratioOf (gesturePassCount lenientConfig ch.gesture frames) frames.length ≥
         lenientConfig.minPassRatio ∧
       ratioOf (expressionPassCount lenientConfig ch.expression frames) frames.length ≥
         lenientConfig.minPassRatio ∧
       populationVariance (frames.map (fun f => f.eye_ratio)) > lenientConfig.varThresh)) :=
  ⟨success_iff strictConfig ch frames now rand h1 h2,
   success_iff lenientConfig ch frames now rand h1 h2⟩

/-- Witness for C1 at a concrete unexpired call with 15 frames. -/
theorem claim_C1_witness :
    ((resultOf strictConfig chFix framesConst 0 0).success = true ↔
      (ratioOf (gesturePassCount strictConfig chFix.gesture framesConst) framesConst.length ≥
         strictConfig.minPassRatio ∧
       ratioOf (expressionPassCount strictConfig chFix.expression framesConst) framesConst.length ≥
         strictConfig.minPassRatio ∧
       populationVariance (framesConst.map (fun f => f.eye_ratio)) > strictConfig.varThresh)) ∧
    ((resultOf lenientConfig chFix framesConst 0 0).success = true ↔
      (ratioOf (gesturePassCount lenientConfig chFix.gesture framesConst) framesConst.length ≥
         lenientConfig.minPassRatio ∧
       ratioOf (expressionPassCount lenientConfig chFix.expression framesConst) framesConst.length ≥
         lenientConfig.minPassRatio ∧
       populationVariance (framesConst.map (fun f => f.eye_ratio)) > lenientConfig.varThresh)) :=
  claim_C1_success_iff_all_factors chFix framesConst 0 0 (by decide) (by decide)

/-- C2: in both variants, the result of verify carries a token iff
success is true; every failing result has no token. -/
theorem claim_C2_token_iff_success (ch : Challenge) (frames : List FrameData)
    (now : ℤ) (rand : ℕ) (r : VerificationResult) :
    (verify strictConfig ch frames now rand = .ok r →
      (r.token.isSome = true ↔ r.success = true)) ∧
    (verify lenientConfig ch frames now rand = .ok r →
      (r.token.isSome = true ↔ r.success = true)) :=
  ⟨token_iff_success strictConfig ch frames now rand r,
   token_iff_success lenientConfig ch frames now rand r⟩

/-- Witness for C2 at a concrete expired call. -/
theorem claim_C2_witness :
    resTimeout.token.isSome = true ↔ resTimeout.success = true :=
  (claim_C2_token_iff_success chFix [] 46000 0 resTimeout).1 (by rfl)

/-- C3: in both variants, when the clock exceeds the expiry deadline,
verify returns success = false, score = 0, the single timeout reason and
no token, for every frame sequence. -/
theorem claim_C3_expiry_short_circuit (ch : Challenge) (frames : List FrameData)
    (now : ℤ) (rand : ℕ) (h : now > ch.expiresAt) :
    verify strictConfig ch frames now rand =
      .ok ⟨false, 0, none, ["Protocol timeout: session expired"]⟩ ∧
    verify lenientConfig ch frames now rand =
      .ok ⟨false, 0, none, ["Protocol timeout: session expired"]⟩ :=
  ⟨verify_expired strictConfig ch frames now rand h,
   verify_expired lenientConfig ch frames now rand h⟩

/-- Witness for C3 at a concrete expired call. -/
theorem claim_C3_witness :
    verify strictConfig chFix framesConst 46000 0 =
      .ok ⟨false, 0, none, ["Protocol timeout: session expired"]⟩ ∧
    verify lenientConfig chFix framesConst 46000 0 =
      .ok ⟨false, 0, none, ["Protocol timeout: session expired"]⟩ :=
  claim_C3_expiry_short_circuit chFix framesConst 46000 0 (by decide)

/-- C4: in both variants, when the challenge is not expired and fewer
than 15 frames were supplied, verify returns success = false, score = 0,
the single insufficient-data reason and no token, for every challenge. -/
theorem claim_C4_density_short_circuit (ch : Challenge) (frames : List FrameData)
    (now : ℤ) (rand : ℕ) (h1 : ¬ now > ch.expiresAt) (h2 : frames.length < 15) :
    verify strictConfig ch frames now rand =
      .ok ⟨false, 0, none, ["Data density failure: insufficient biometric stream"]⟩ ∧
    verify lenientConfig ch frames now rand =
      .ok ⟨false, 0, none, ["Data density failure: insufficient biometric stream"]⟩ :=
  ⟨verify_short strictConfig ch frames now rand h1 h2,
   verify_short lenientConfig ch frames now rand h1 h2⟩

/-- Witness for C4 at a concrete unexpired call with no frames. -/
theorem claim_C4_witness :
    verify strictConfig chFix [] 0 0 =
      .ok ⟨false, 0, none, ["Data density failure: insufficient biometric stream"]⟩ ∧
    verify lenientConfig chFix [] 0 0 =
      .ok ⟨false, 0, none, ["Data density failure: insufficient biometric stream"]⟩ :=
  claim_C4_density_short_circuit chFix [] 0 0 (by decide) (by decide)

/-! Concrete evaluations used by the score and reasons claims -/

theorem framesConst_gestureCount :
    gesturePassCount strictConfig .touch_nose framesConst = 15 := by
  rw [gesturePassCount, framesConst, countP_replicate]
  norm_num [gesturePred, frameFix, lmFix, strictConfig]

theorem framesConst_expressionCount :
    expressionPassCount strictConfig .smile framesConst = 15 := by
  rw [expressionPassCount, framesConst, countP_replicate]
  norm_num [expressionPred, frameFix, lmFix, strictConfig]

theorem framesConst_variance :
    populationVariance (framesConst.map (fun f => f.eye_ratio)) = 0 := by
  simp [framesConst, frameFix, populationVariance, List.map_replicate, List.sum_replicate]

theorem score_fail_example :
    (resultOf strictConfig chFix framesConst 0 0).score = 80 ∧
    (resultOf strictConfig chFix framesConst 0 0).success = false := by
  have h1 : ¬ (0:ℤ) > chFix.expiresAt := by decide
  have h2 : 15 ≤ framesConst.length := by decide
  have hg : chFix.gesture = GestureType.touch_nose := rfl
  have he : chFix.expression = ExpressionType.smile := rfl
  constructor
  · rw [resultOf_full strictConfig chFix framesConst 0 0 h1 h2, verdict_score,
      hg, he, framesConst_gestureCount, framesConst_expressionCount, framesConst_variance]
    have hr : ratioOf 15 framesConst.length = 1 := by
      norm_num [ratioOf, framesConst]
    rw [hr]
    have hd : decide ((0:ℚ) > strictConfig.varThresh) = false := by
      simp only [decide_eq_false_iff_not, gt_iff_lt, not_lt]
      norm_num [strictConfig]
    rw [hd]
    unfold displayScore scoreContrib jsRound
    have hmin : min ((1:ℚ) / 0.4) 1 = 1 := min_eq_right (by norm_num)
    rw [hmin]
    norm_num [Int.floor_eq_iff]
  · rcases Bool.eq_false_or_eq_true (resultOf strictConfig chFix framesConst 0 0).success with
      ht | hf
    · exfalso
      have h3 := (success_iff strictConfig chFix framesConst 0 0 h1 h2).mp ht
      rw [framesConst_variance] at h3
      have h4 := h3.2.2
      norm_num [strictConfig] at h4
    · exact hf

/-- C5: on every full evaluation (not expired, at least 15 frames), in
both variants, the score equals round of the sum of the two ratio
contributions saturating at 0.4 and a flat 20 for liveness; on every
input the score is an integer in the range 0 to 100; and the score can
be positive while success is false. -/
theorem claim_C5_score_contract :
    (∀ (cfg : Config) (ch : Challenge) (frames : List FrameData) (now : ℤ) (rand : ℕ),
      ¬ now > ch.expiresAt → 15 ≤ frames.length →
      (resultOf cfg ch frames now rand).score =
        jsRound
          (min (ratioOf (gesturePassCount cfg ch.gesture frames) frames.length / 0.4) 1 * 40 +
           min (ratioOf (expressionPassCount cfg ch.expression frames) frames.length / 0.4) 1 * 40 +
           (if populationVariance (frames.map (fun f => f.eye_ratio)) > cfg.varThresh
             then 20 else 0))) ∧
    (∀ (cfg : Config) (ch : Challenge) (frames : List FrameData) (now : ℤ) (rand : ℕ),
      0 ≤ (resultOf cfg ch frames now rand).score ∧
      (resultOf cfg ch frames now rand).score ≤ 100) ∧
    ((resultOf strictConfig chFix framesConst 0 0).score > 0 ∧
     (resultOf strictConfig chFix framesConst 0 0).success = false) := by
  refine ⟨?_, ?_, ?_⟩
  · intro cfg ch frames now rand h1 h2
    rw [resultOf_full cfg ch frames now rand h1 h2, verdict_score]
    by_cases hv : populationVariance (frames.map (fun f => f.eye_ratio)) > cfg.varThresh <;>
      simp [displayScore, scoreContrib, hv]
  · intro cfg ch frames now rand
    by_cases h1 : now > ch.expiresAt
    · rw [resultOf_expired cfg ch frames now rand h1]
      exact ⟨le_refl 0, by norm_num⟩
    · by_cases h2 : frames.length < 15
      · rw [resultOf_short cfg ch frames now rand h1 h2]
        exact ⟨le_refl 0, by norm_num⟩
      · rw [resultOf_full cfg ch frames now rand h1 (Nat.not_lt.mp h2), verdict_score]
        exact displayScore_bounds _ _ (ratioOf_nonneg _ _) (ratioOf_nonneg _ _) _
  · exact ⟨by rw [score_fail_example.1]; norm_num, score_fail_example.2⟩

/-- Witness for C5, applying the score formula at a concrete unexpired
call with 15 frames. -/
theorem claim_C5_witness :
    (resultOf strictConfig chFix framesConst 0 0).score =
      jsRound
        (min (ratioOf (gesturePassCount strictConfig chFix.gesture framesConst)
            framesConst.length / 0.4) 1 * 40 +
         min (ratioOf (expressionPassCount strictConfig chFix.expression framesConst)
            framesConst.length / 0.4) 1 * 40 +
         (if populationVariance (framesConst.map (fun f => f.eye_ratio)) > strictConfig.varThresh
           then 20 else 0)) :=
  claim_C5_score_contract.1 strictConfig chFix framesConst 0 0 (by decide) (by decide)

/-- C7: with the frame count fixed, increasing the gesture pass count
never decreases the gesture ratio, never decreases the capped score
contribution, and never turns a passing gesture factor (in either
variant) into a failing one. -/
theorem claim_C7_gesture_monotone (n c c' : ℕ) (hn : 0 < n) (hcc : c ≤ c') :
    ratioOf c n ≤ ratioOf c' n ∧
    scoreContrib (ratioOf c n) ≤ scoreContrib (ratioOf c' n) ∧
    (ratioOf c n ≥ strictConfig.minPassRatio → ratioOf c' n ≥ strictConfig.minPassRatio) ∧
    (ratioOf c n ≥ lenientConfig.minPassRatio → ratioOf c' n ≥ lenientConfig.minPassRatio) := by
  have hn' : (0:ℚ) < (n : ℚ) := by exact_mod_cast hn
  have hc2 : (c:ℚ) ≤ (c':ℚ) := by exact_mod_cast hcc
  have hratio : ratioOf c n ≤ ratioOf c' n := by
    unfold ratioOf
    gcongr
  refine ⟨hratio, ?_, fun h => le_trans h hratio, fun h => le_trans h hratio⟩
  unfold scoreContrib
  have hdiv : ratioOf c n / 0.4 ≤ ratioOf c' n / 0.4 := by gcongr
  have hmin : min (ratioOf c n / 0.4) 1 ≤ min (ratioOf c' n / 0.4) 1 :=
    min_le_min hdiv le_rfl
  nlinarith [hmin]

/-- Witness for C7 at frame count 20, pass counts 3 and 5. -/
theorem claim_C7_witness :
    ratioOf 3 20 ≤ ratioOf 5 20 ∧
    scoreContrib (ratioOf 3 20) ≤ scoreContrib (ratioOf 5 20) ∧
    (ratioOf 3 20 ≥ strictConfig.minPassRatio → ratioOf 5 20 ≥ strictConfig.minPassRatio) ∧
    (ratioOf 3 20 ≥ lenientConfig.minPassRatio → ratioOf 5 20 ≥ lenientConfig.minPassRatio) :=
  claim_C7_gesture_monotone 20 3 5 (by decide) (by decide)

/-- C8: verify terminates normally on every input, in particular with an
empty or arbitrary frame sequence, never surfacing the exception that the
variance computation raises on an empty series (the error value of
`calculateVariance`), because that computation is only reached behind the
15-frame guard. -/
theorem claim_C8_no_exception :
    (∀ (cfg : Config) (ch : Challenge) (frames : List FrameData) (now : ℤ) (rand : ℕ),
      ∃ r, verify cfg ch frames now rand = .ok r) ∧
    calculateVariance [] =
      .error "TypeError: Reduce of empty array with no initial value" := by
  constructor
  · intro cfg ch frames now rand
    by_cases h1 : now > ch.expiresAt
    · exact ⟨_, verify_expired cfg ch frames now rand h1⟩
    · by_cases h2 : frames.length < 15
      · exact ⟨_, verify_short cfg ch frames now rand h1 h2⟩
      · exact ⟨_, verify_full cfg ch frames now rand h1 (Nat.not_lt.mp h2)⟩
  · rfl

theorem gestureType_mem (g : GestureType) : g ∈ gestures := by
  cases g <;> simp [gestures]

theorem expressionType_mem (e : ExpressionType) : e ∈ expressions := by
  cases e <;> simp [expressions]

/-- C9: every generated challenge has its gesture in the three-element
gesture enumeration, its expression in the three-element expression
enumeration, and an expiry of the creation-time clock reading plus
exactly 45000 ms. -/
theorem claim_C9_challenge_shape (idStr : String) (rg re : ℚ) (now : ℤ) :
    (generateChallenge idStr rg re now).gesture ∈ gestures ∧
    (generateChallenge idStr rg re now).expression ∈ expressions ∧
    gestures.length = 3 ∧ expressions.length = 3 ∧
    (generateChallenge idStr rg re now).expiresAt = now + 45000 :=
  ⟨gestureType_mem _, expressionType_mem _, rfl, rfl, rfl⟩

/-- A landmark snapshot with every hand-related field at the sentinel -1. -/
def lmSent : LandmarkData where
  left_hand_y := -1
  right_hand_y := -1
  shoulder_y := 0.5
  mouth_width := 1
  brow_distance := 1
  hand_nose_dist := -1
  eye_ratio := 0
  timestamp := 0

/-- A frame carrying the all-sentinel snapshot. -/
def fSent : FrameData := ⟨0, 0, lmSent⟩

/-- C10: for the touch-nose gesture a frame whose hand_nose_dist is the
sentinel -1 satisfies the gesture predicate in both variants (-1 lies
below the proximity threshold) and increments gesturePassCount, whereas
the hand-raised predicates reject the -1 sentinel through their
strictly-positive guard. -/
theorem claim_C10_sentinel_gesture (lm : LandmarkData) (f : FrameData)
    (frames : List FrameData) (hf : f.landmarks = lm) :
    (lm.hand_nose_dist = -1 →
      gesturePred strictConfig .touch_nose lm = true ∧
      gesturePred lenientConfig .touch_nose lm = true ∧
      gesturePassCount strictConfig .touch_nose (f :: frames) =
        gesturePassCount strictConfig .touch_nose frames + 1 ∧
      gesturePassCount lenientConfig .touch_nose (f :: frames) =
        gesturePassCount lenientConfig .touch_nose frames + 1) ∧
    (lm.left_hand_y = -1 →
      gesturePred strictConfig .left_hand_up lm = false ∧
      gesturePred lenientConfig .left_hand_up lm = false) ∧
    (lm.right_hand_y = -1 →
      gesturePred strictConfig .right_hand_up lm = false ∧
      gesturePred lenientConfig .right_hand_up lm = false) := by
  refine ⟨fun h => ?_, fun h => ?_, fun h => ?_⟩
  · have hs : gesturePred strictConfig .touch_nose lm = true := by
      norm_num [gesturePred, h, strictConfig]
    have hl : gesturePred lenientConfig .touch_nose lm = true := by
      norm_num [gesturePred, h, lenientConfig]
    refine ⟨hs, hl, ?_, ?_⟩
    · simp [gesturePassCount, List.countP_cons, hf, hs]
    · simp [gesturePassCount, List.countP_cons, hf, hl]
  · constructor <;> norm_num [gesturePred, h]
  · constructor <;> norm_num [gesturePred, h]

/-- Witness for C10 at the all-sentinel snapshot. -/
theorem claim_C10_witness :
    gesturePred strictConfig .touch_nose lmSent = true ∧
    gesturePred lenientConfig .touch_nose lmSent = true ∧
    gesturePassCount strictConfig .touch_nose (fSent :: []) =
      gesturePassCount strictConfig .touch_nose [] + 1 ∧
    gesturePassCount lenientConfig .touch_nose (fSent :: []) =
      gesturePassCount lenientConfig .touch_nose [] + 1 :=
  (claim_C10_sentinel_gesture lmSent fSent [] rfl).1 rfl

/-! Claim C6: reasons-list structure -/

theorem verdict_reasons (cfg : Config) (ch : Challenge) (frames : List FrameData)
    (v : ℚ) (now : ℤ) (rand : ℕ) :
    (verdict cfg ch frames v now rand).reasons =
      [if ratioOf (gesturePassCount cfg ch.gesture frames) frames.length ≥ cfg.minPassRatio
         then cfg.gesturePassLine
           (jsRound (ratioOf (gesturePassCount cfg ch.gesture frames) frames.length * 100))
         else cfg.gestureFailLine ch.gesture,
       if ratioOf (expressionPassCount cfg ch.expression frames) frames.length ≥ cfg.minPassRatio
         then cfg.expressionPassLine
           (jsRound (ratioOf (expressionPassCount cfg ch.expression frames) frames.length * 100))
         else cfg.expressionFailLine ch.expression,
       if v > cfg.varThresh then cfg.livenessPassLine else cfg.livenessFailLine] ++
      (if (verdict cfg ch frames v now rand).success = true
        then cfg.summaryLine.toList else []) := by
  simp only [verdict, Bool.and_eq_true, decide_eq_true_eq]

theorem framesVaried_gestureCount :
    gesturePassCount lenientConfig .touch_nose framesVaried = 15 := by
  rw [gesturePassCount, framesVaried, List.countP_cons, countP_replicate]
  norm_num [gesturePred, frameWide, frameFix, lmFix, lenientConfig]

theorem framesVaried_expressionCount :
    expressionPassCount lenientConfig .smile framesVaried = 15 := by
  rw [expressionPassCount, framesVaried, List.countP_cons, countP_replicate]
  norm_num [expressionPred, frameWide, frameFix, lmFix, lenientConfig]

theorem framesVaried_variance :
    populationVariance (framesVaried.map (fun f => f.eye_ratio)) = 14 / 225 := by
  simp only [framesVaried, frameWide, frameFix, populationVariance, List.map_cons,
    List.map_replicate, List.sum_cons, List.sum_replicate, List.length_cons,
    List.length_replicate]
  norm_num [nsmul_eq_mul]

theorem framesVaried_length : framesVaried.length = 15 := by
  simp [framesVaried]

theorem framesVaried_success :
    (resultOf lenientConfig chFix framesVaried 0 0).success = true := by
  rw [success_iff lenientConfig chFix framesVaried 0 0 (by decide)
    (le_of_eq framesVaried_length.symm)]
  have hg : chFix.gesture = GestureType.touch_nose := rfl
  have he : chFix.expression = ExpressionType.smile := rfl
  rw [hg, he, framesVaried_gestureCount, framesVaried_expressionCount, framesVaried_variance,
    framesVaried_length]
  refine ⟨?_, ?_, ?_⟩ <;> norm_num [ratioOf, lenientConfig]

/-- C6 counterexample: a concrete full evaluation of the second variant
in which success is true yet the reasons list has exactly the three
factor lines and no closing summary line, refuting the claim that a
closing summary line is present if and only if success is true. -/
theorem claim_C6_counterexample :
    (resultOf lenientConfig chFix framesVaried 0 0).success = true ∧
    (resultOf lenientConfig chFix framesVaried 0 0).reasons.length = 3 := by
  refine ⟨framesVaried_success, ?_⟩
  rw [resultOf_full lenientConfig chFix framesVaried 0 0 (by decide)
    (le_of_eq framesVaried_length.symm)]
  simp [verdict, lenientConfig]

/-- C6 (amended): on every full evaluation the reasons list is exactly
one audit line per factor in the fixed order gesture, expression,
liveness (a failure line when the factor fails, a confirmation line with
its matched percentage when it passes); in the first variant a closing
summary line follows if and only if success is true, while the second
variant never appends a summary line. -/
theorem claim_C6_reasons_order (ch : Challenge) (frames : List FrameData)
    (now : ℤ) (rand : ℕ) (h1 : ¬ now > ch.expiresAt) (h2 : 15 ≤ frames.length) :
    ((resultOf strictConfig ch frames now rand).reasons =
      [if ratioOf (gesturePassCount strictConfig ch.gesture frames) frames.length ≥
          strictConfig.minPassRatio
         then strictConfig.gesturePassLine
           (jsRound (ratioOf (gesturePassCount strictConfig ch.gesture frames)
             frames.length * 100))
         else strictConfig.gestureFailLine ch.gesture,
       if ratioOf (expressionPassCount strictConfig ch.expression frames) frames.length ≥
          strictConfig.minPassRatio
         then strictConfig.expressionPassLine
           (jsRound (ratioOf (expressionPassCount strictConfig ch.expression frames)
             frames.length * 100))
         else strictConfig.expressionFailLine ch.expression,
       if populationVariance (frames.map (fun f => f.eye_ratio)) > strictConfig.varThresh
         then strictConfig.livenessPassLine else strictConfig.livenessFailLine] ++
      (if (resultOf strictConfig ch frames now rand).success = true
        then ["All security layers validated successfully"] else [])) ∧
    ((resultOf lenientConfig ch frames now rand).reasons =
      [if ratioOf (gesturePassCount lenientConfig ch.gesture frames) frames.length ≥
          lenientConfig.minPassRatio
         then lenientConfig.gesturePassLine
           (jsRound (ratioOf (gesturePassCount lenientConfig ch.gesture frames)
             frames.length * 100))
         else lenientConfig.gestureFailLine ch.gesture,
       if ratioOf (expressionPassCount lenientConfig ch.expression frames) frames.length ≥
          lenientConfig.minPassRatio
         then lenientConfig.expressionPassLine
           (jsRound (ratioOf (expressionPassCount lenientConfig ch.expression frames)
             frames.length * 100))
         else lenientConfig.expressionFailLine ch.expression,
       if populationVariance (frames.map (fun f => f.eye_ratio)) > lenientConfig.varThresh
         then lenientConfig.livenessPassLine else lenientConfig.livenessFailLine]) := by
  constructor
  · rw [resultOf_full strictConfig ch frames now rand h1 h2, verdict_reasons]
    norm_num [strictConfig]
  · rw [resultOf_full lenientConfig ch frames now rand h1 h2, verdict_reasons]
    norm_num [lenientConfig]

/-- Witness for the amended C6 at a concrete unexpired call with 15
frames. -/
theorem claim_C6_witness :
    ((resultOf strictConfig chFix framesConst 0 0).reasons =
      [if ratioOf (gesturePassCount strictConfig chFix.gesture framesConst) framesConst.length ≥
          strictConfig.minPassRatio
         then strictConfig.gesturePassLine
           (jsRound (ratioOf (gesturePassCount strictConfig chFix.gesture framesConst)
             framesConst.length * 100))
         else strictConfig.gestureFailLine chFix.gesture,
       if ratioOf (expressionPassCount strictConfig chFix.expression framesConst)
            framesConst.length ≥ strictConfig.minPassRatio
         then strictConfig.expressionPassLine
           (jsRound (ratioOf (expressionPassCount strictConfig chFix.expression framesConst)
             framesConst.length * 100))
         else strictConfig.expressionFailLine chFix.expression,
       if populationVariance (framesConst.map (fun f => f.eye_ratio)) > strictConfig.varThresh
         then strictConfig.livenessPassLine else strictConfig.livenessFailLine] ++
      (if (resultOf strictConfig chFix framesConst 0 0).success = true
        then ["All security layers validated successfully"] else [])) ∧
    ((resultOf lenientConfig chFix framesConst 0 0).reasons =
      [if ratioOf (gesturePassCount lenientConfig chFix.gesture framesConst) framesConst.length ≥
          lenientConfig.minPassRatio
         then lenientConfig.gesturePassLine
           (jsRound (ratioOf (gesturePassCount lenientConfig chFix.gesture framesConst)
             framesConst.length * 100))
         else lenientConfig.gestureFailLine chFix.gesture,
       if ratioOf (expressionPassCount lenientConfig chFix.expression framesConst)
            framesConst.length ≥ lenientConfig.minPassRatio
         then lenientConfig.expressionPassLine
           (jsRound (ratioOf (expressionPassCount lenientConfig chFix.expression framesConst)
             framesConst.length * 100))
         else lenientConfig.expressionFailLine chFix.expression,
       if populationVariance (framesConst.map (fun f => f.eye_ratio)) > lenientConfig.varThresh
         then lenientConfig.livenessPassLine else lenientConfig.livenessFailLine]) :=
  claim_C6_reasons_order chFix framesConst 0 0 (by decide) (by decide)

end MEAI
